import Mathlib

/-!
Verification of the polygon-mcp repository core logic.

The Python sources are embedded shallowly:
pure helpers become Lean functions over exact rationals and strings,
the HTTP layer is represented by the decoded response shape it hands to
the callers, and filesystem or network effects become explicit values
returned by the embedded functions.  Numeric payload fields are modelled
as exact rationals; the concrete values exercised by the claims are all
exactly representable, so no binary floating point rounding is involved.
-/

set_option allowUnsafeReducibility true in
attribute [semireducible] Rat.mul Rat.inv Rat.add Rat.sub Rat.ofScientific

/-! ### Decimal and string formatting helpers (model of the format specs used in the source) -/

/-- Substring test on character lists, modelling the Python `in` operator on strings. -/
def hasSub : List Char → List Char → Bool
  | pat, [] => pat.isEmpty
  | pat, c :: rest => pat.isPrefixOf (c :: rest) || hasSub pat rest

/-- Groups a reversed digit list into blocks of three, used for thousands separators. -/
def group3 : List Char → List (List Char)
  | [] => []
  | [a] => [[a]]
  | [a, b] => [[a, b]]
  | a :: b :: c :: rest => [a, b, c] :: group3 rest

/-- Thousands-separated rendering of a natural number, as in the Python comma format spec. -/
def commaSep (n : Nat) : String :=
  String.mk (List.intercalate [','] (((group3 (toString n).data.reverse).map List.reverse).reverse))

/-- Left-pads a digit string with zeros up to the requested width. -/
def padZeros (d : Nat) (s : String) : String :=
  String.mk (List.replicate (d - s.length) '0') ++ s

/-- Bankers rounding of a rational to an integer, the rounding used by Python fixed-point formatting. -/
def roundHalfEven (q : ℚ) : ℤ :=
  let f := Rat.floor q
  let r := q - (f : ℚ)
  if r < 1 / 2 then f
  else if 1 / 2 < r then f + 1
  else if f % 2 = 0 then f else f + 1

/-- Fixed-point decimal rendering with d fraction digits, optional thousands separators in the
integer part and an optional forced leading plus sign; models the Python format specs
used in the source such as two-decimal currency and one-decimal scale suffixes. -/
def fmtFixed (commas : Bool) (d : Nat) (forceSign : Bool) (q : ℚ) : String :=
  let n := roundHalfEven (q * ((10 ^ d : ℕ) : ℚ))
  let sign := if n < 0 ∨ (n = 0 ∧ q < 0) then "-" else if forceSign then "+" else ""
  let m := n.natAbs
  let ip := m / 10 ^ d
  let fp := m % 10 ^ d
  let ipStr := if commas then commaSep ip else toString ip
  sign ++ ipStr ++ (if d = 0 then "" else "." ++ padZeros d (toString fp))

/-- Thousands-separated rendering of an integer, as the Python comma format spec on ints. -/
def intComma (v : ℤ) : String :=
  (if v < 0 then "-" else "") ++ commaSep v.natAbs

/-- Truncation of a rational toward zero, modelling the Python int conversion. -/
def ratTrunc (q : ℚ) : ℤ :=
  if q < 0 then -(Rat.floor (-q)) else Rat.floor q


/-! ### Ticker resolution (model of extract_ticker in src/utils/polygon_mcp_util.py)

The four regular expressions of the source are compiled with the ignore-case
flag; each is modelled by a scanner that returns the capture group of the
leftmost match, which is all the source reads from the findall result.
Word characters and word boundaries follow the regex word class on the
ASCII queries the patterns are meant for. -/

/-- Word characters of the regex word class, restricted to ASCII input. -/
def isWordChar (ch : Char) : Bool := ch.isAlpha || ch.isDigit || ch = '_'

/-- Whitespace characters recognised by the regex whitespace class on ASCII input. -/
def isSpaceChar (ch : Char) : Bool := ch = ' ' || ch = '\t' || ch = '\n' || ch = '\r'

/-- A word boundary holds before the current position: start of text or a non-word
character just before. -/
def boundaryOk : Option Char → Bool
  | none => true
  | some p => !(isWordChar p)

/-- The capture group of the ticker patterns at the current position: the maximal
word run must consist entirely of admissible letters and have length between lo
and 5, because the closing word boundary of the group forbids any shorter match. -/
def wordRun (alphaOk : Char → Bool) (lo : Nat) (l : List Char) : Option (List Char) :=
  let run := l.takeWhile isWordChar
  if run.all alphaOk && lo ≤ run.length && run.length ≤ 5 then some run else none

/-- Python str.lower on the ASCII strings the source handles, over the character list. -/
def strLower (s : String) : String := String.mk (s.data.map Char.toLower)

/-- Python str.upper on the ASCII strings the source handles, over the character list. -/
def strUpper (s : String) : String := String.mk (s.data.map Char.toUpper)

/-- Case-insensitive test that the list starts with the given lowercase keyword. -/
def ciStarts (kw : String) (l : List Char) : Bool :=
  (l.take kw.data.length).map Char.toLower == kw.data

/-- One of the typed words of the first source pattern follows here, after at
least one whitespace character. -/
def kwAfter : List Char → Bool
  | [] => false
  | c :: rest =>
    isSpaceChar c &&
      (let tail := (c :: rest).dropWhile isSpaceChar
       ciStarts "stock" tail || ciStarts "price" tail ||
         ciStarts "shares" tail || ciStarts "ticker" tail)

/-- Leftmost capture of the pattern: word-bounded symbol of one to five letters
followed by whitespace and a typed word such as stock or price. -/
def scanTyped (alphaOk : Char → Bool) : Option Char → List Char → Option (List Char)
  | _, [] => none
  | prev, c :: rest =>
    (if boundaryOk prev then
       match wordRun alphaOk 1 (c :: rest) with
       | some run => if kwAfter ((c :: rest).drop run.length) then some run else none
       | none => none
     else none) <|> scanTyped alphaOk (some c) rest

/-- Leftmost capture of the pattern: the word ticker or symbol, whitespace, then a
word-bounded symbol of one to five letters. -/
def scanKeyword (alphaOk : Char → Bool) : List Char → Option (List Char)
  | [] => none
  | c :: rest =>
    (if ciStarts "ticker" (c :: rest) || ciStarts "symbol" (c :: rest) then
       let after := (c :: rest).drop 6
       match after with
       | a :: _ => if isSpaceChar a then wordRun alphaOk 1 (after.dropWhile isSpaceChar) else none
       | [] => none
     else none) <|> scanKeyword alphaOk rest

/-- Leftmost capture of the pattern: a currency sigil directly followed by a
word-bounded symbol of one to five letters. -/
def scanSigil (alphaOk : Char → Bool) : List Char → Option (List Char)
  | [] => none
  | c :: rest =>
    (if c = '$' then wordRun alphaOk 1 rest else none) <|> scanSigil alphaOk rest

/-- Leftmost capture of the pattern: a standalone word-bounded token of two to
five letters. -/
def scanBare (alphaOk : Char → Bool) : Option Char → List Char → Option (List Char)
  | _, [] => none
  | prev, c :: rest =>
    (if boundaryOk prev then wordRun alphaOk 2 (c :: rest) else none)
      <|> scanBare alphaOk (some c) rest

/-- Upper-cases the first match and applies the length validation of the source;
a failed validation falls through to the next pattern, exactly as in the loop. -/
def validated (g : Option (List Char)) : Option String :=
  g.bind fun run =>
    let t := strUpper (String.mk run)
    if 1 ≤ t.length ∧ t.length ≤ 5 then some t else none

/-- The ordered pattern phase of extract_ticker: typed-word pattern, keyword
pattern, sigil pattern, bare-token pattern, first match wins. -/
def tryPatterns (q : String) : Option String :=
  validated (scanTyped Char.isAlpha none q.data) <|>
    (validated (scanKeyword Char.isAlpha q.data) <|>
      (validated (scanSigil Char.isAlpha q.data) <|>
        validated (scanBare Char.isAlpha none q.data)))

/-- The fixed company-name dictionary of the source, in its insertion order,
which is the iteration order of the loop. -/
def company_mappings : List (String × String) :=
  [("apple", "AAPL"), ("microsoft", "MSFT"), ("google", "GOOGL"), ("alphabet", "GOOGL"),
   ("amazon", "AMZN"), ("tesla", "TSLA"), ("meta", "META"), ("facebook", "META"),
   ("nvidia", "NVDA"), ("netflix", "NFLX"), ("disney", "DIS"), ("walmart", "WMT"),
   ("coca cola", "KO"), ("pepsi", "PEP"), ("johnson", "JNJ"), ("visa", "V"),
   ("mastercard", "MA"), ("intel", "INTC"), ("amd", "AMD"), ("ibm", "IBM"),
   ("oracle", "ORCL"), ("salesforce", "CRM"), ("adobe", "ADBE"), ("zoom", "ZM"),
   ("uber", "UBER"), ("lyft", "LYFT"), ("airbnb", "ABNB"), ("spotify", "SPOT"),
   ("twitter", "TWTR"), ("snapchat", "SNAP"), ("pinterest", "PINS"), ("square", "SQ"),
   ("paypal", "PYPL"), ("coinbase", "COIN"), ("robinhood", "HOOD")]

/-- extract_ticker of src/utils/polygon_mcp_util.py: the dictionary loop over the
lowercased query runs first and returns on the first substring hit; only then
the ordered pattern list is tried on the original-case query. -/
def extract_ticker (query : String) : Option String :=
  match company_mappings.find? (fun p => hasSub p.1.data (strLower query).data) with
  | some p => some p.2
  | none => tryPatterns query

/-- Modelled from the words of claim C3, for comparison with the source: the
pattern order is stated as sigil first, then typed word, then bare token, the
tokens being uppercase letters of the original-case query. -/
def claimPatternResolve (q : String) : Option String :=
  match company_mappings.find? (fun p => hasSub p.1.data (strLower q).data) with
  | some p => some p.2
  | none =>
    validated (scanSigil Char.isUpper q.data) <|>
      (validated (scanTyped Char.isUpper none q.data) <|>
        validated (scanBare Char.isUpper none q.data))


/-! ### Data model of the decoded provider responses

A decoded response dictionary is observed by the source only through a
truthiness test on its results entry and on its error entry; a present and
truthy results value is modelled as some payload, a missing or falsy one as
none, and the error string is kept as an option whose empty string is falsy. -/

/-- Fields the source reads from a ticker-details results object; a missing
dictionary key is none. -/
structure TickerDetails where
  name : Option String
  market : Option String
  type : Option String
  currency_name : Option String
  market_cap : Option ℚ

/-- Fields the source reads from one previous-close bar; a missing key is none. -/
structure Bar where
  c : Option ℚ
  h : Option ℚ
  l : Option ℚ
  o : Option ℚ
  v : Option ℚ

/-- Fields the source reads from one news article; a missing key is none. -/
structure Article where
  title : Option String
  published_utc : Option String
  article_url : Option String

/-- A decoded response: the results payload when present and truthy, and the
error string when the error key is present. -/
structure ApiResponse (α : Type) where
  results : Option α
  error : Option String

/-- The gateway as the source consumes it: one function per outbound endpoint
of the PolygonAPI class, returning the decoded response. -/
structure PolygonAPI where
  get_ticker_details : String → ApiResponse TickerDetails
  get_previous_close : String → ApiResponse (List Bar)
  get_news : String → Nat → ApiResponse (List Article)

/-! ### Report synthesis (analyze_stock_query of src/utils/polygon_mcp_util.py) -/

/-- format_price of the source on a numeric or missing value: currency with two
decimals and thousands separators, or the N/A placeholder. -/
def format_price : Option ℚ → String
  | none => "N/A"
  | some p => "$" ++ fmtFixed true 2 false p

/-- format_volume of the source on a numeric or missing value: the value is
truncated to an integer, then scaled to M above a million, K above a thousand,
else rendered as a thousands-separated integer. -/
def format_volume : Option ℚ → String
  | none => "N/A"
  | some q =>
    let vol := ratTrunc q
    if vol ≥ 1000000 then fmtFixed false 1 false ((vol : ℚ) / 1000000) ++ "M"
    else if vol ≥ 1000 then fmtFixed false 1 false ((vol : ℚ) / 1000) ++ "K"
    else intComma vol

/-- The company line of the details section, with its N/A default. -/
def companyLine (d : TickerDetails) : String :=
  "**Company:** " ++ d.name.getD "N/A" ++ "\n"

/-- The market line of the details section, upper-cased, with its N/A default. -/
def marketLine (d : TickerDetails) : String :=
  "**Market:** " ++ strUpper (d.market.getD "N/A") ++ "\n"

/-- The type line of the details section, with its N/A default. -/
def typeLine (d : TickerDetails) : String :=
  "**Type:** " ++ d.type.getD "N/A" ++ "\n"

/-- The currency line of the details section, upper-cased, with its USD default. -/
def currencyLine (d : TickerDetails) : String :=
  "**Currency:** " ++ strUpper (d.currency_name.getD "USD") ++ "\n"

/-- The market-cap line: guarded by the truthiness of the value, so a missing or
zero market cap emits nothing; otherwise scaled to B above a billion, M above a
million, else a thousands-separated integer. -/
def marketCapPart : Option ℚ → String
  | none => ""
  | some mc =>
    if mc = 0 then ""
    else if mc ≥ 1000000000 then
      "**Market Cap:** $" ++ fmtFixed false 1 false (mc / 1000000000) ++ "B\n"
    else if mc ≥ 1000000 then
      "**Market Cap:** $" ++ fmtFixed false 1 false (mc / 1000000) ++ "M\n"
    else "**Market Cap:** $" ++ fmtFixed true 0 false mc ++ "\n"

/-- The ticker-details section for a truthy results payload. -/
def detailsSection (d : TickerDetails) : String :=
  companyLine d ++ marketLine d ++ typeLine d ++ currencyLine d ++
    marketCapPart d.market_cap ++ "\n"

/-- The details block of the report: the section on truthy results, the warning
line on a truthy error, else nothing. -/
def detailsPart (r : ApiResponse TickerDetails) : String :=
  match r.results with
  | some d => detailsSection d
  | none =>
    match r.error with
    | some e => if e = "" then "" else "⚠️ Could not fetch ticker details: " ++ e ++ "\n\n"
    | none => ""

/-- The fixed lines of the price section up to the volume line. -/
def priceLines (b : Bar) : String :=
  "**📈 Previous Close Data:**\n" ++
    "- **Close:** " ++ format_price b.c ++ "\n" ++
    "- **Open:** " ++ format_price b.o ++ "\n" ++
    "- **High:** " ++ format_price b.h ++ "\n" ++
    "- **Low:** " ++ format_price b.l ++ "\n"

/-- The volume line of the price section; the share count goes through
format_volume. -/
def volumeLine (b : Bar) : String :=
  "- **Volume:** " ++ format_volume b.v ++ " shares\n\n"

/-- The daily-change line for truthy open and close: the signed difference and
the signed percentage against the open, each with two decimals. -/
def changeLine (o c : ℚ) : String :=
  let change := c - o
  let pct := change / o * 100
  "**Daily Change:** " ++ (if change ≥ 0 then "📈" else "📉") ++ " " ++
    fmtFixed false 2 true change ++ " (" ++ fmtFixed false 2 true pct ++ "%)\n\n"

/-- The guarded daily-change part: emitted only when the open and the close are
both present and both truthy, which for numbers means nonzero. -/
def dailyChange (b : Bar) : Option String :=
  match b.o, b.c with
  | some o, some c => if o ≠ 0 ∧ c ≠ 0 then some (changeLine o c) else none
  | _, _ => none

/-- The price section for a non-empty results list, built from its first bar. -/
def priceSection (b : Bar) : String :=
  priceLines b ++ volumeLine b ++ (dailyChange b).getD ""

/-- The price block of the report: the section on a non-empty results list, the
warning line on a truthy error, else nothing. -/
def pricePart (r : ApiResponse (List Bar)) : String :=
  match r.results with
  | some (b :: _) => priceSection b
  | _ =>
    match r.error with
    | some e => if e = "" then "" else "⚠️ Could not fetch price data: " ++ e ++ "\n\n"
    | none => ""

/-- Normalisation of a well-formed ISO timestamp into the rendered date form,
modelling the parse and strftime of the source on the canonical timestamp
shapes; no claim depends on this rendering. -/
def isoNorm (s : String) : Option String :=
  match s.data with
  | y1 :: y2 :: y3 :: y4 :: '-' :: m1 :: m2 :: '-' :: d1 :: d2 :: t :: h1 :: h2 :: ':' :: n1 :: n2 :: _ =>
    if ([y1, y2, y3, y4, m1, m2, d1, d2, h1, h2, n1, n2].all Char.isDigit) && (t = 'T' || t = ' ') then
      some (String.mk [y1, y2, y3, y4, '-', m1, m2, '-', d1, d2, ' ', h1, h2, ':', n1, n2])
    else none
  | _ => none

/-- The rendered news date: the sentinel passes through, a parsable timestamp is
normalised, anything else falls back to the raw string. -/
def newsDate (published : String) : String :=
  if published = "Unknown date" then published
  else
    match isoNorm published with
    | some s => s
    | none => published

/-- One rendered news entry with its defaults for missing fields. -/
def newsEntry (a : Article) : String :=
  "- [" ++ a.title.getD "No title" ++ "](" ++ a.article_url.getD "#" ++ ") - " ++
    newsDate (a.published_utc.getD "Unknown date") ++ "\n"

/-- The news section: header, the first three articles, a closing blank line. -/
def newsSection (articles : List Article) : String :=
  "**📰 Recent News:**\n" ++ String.join ((articles.take 3).map newsEntry) ++ "\n"

/-- The news block of the report: the section on a non-empty results list, the
warning line on a truthy error, else nothing. -/
def newsPart (r : ApiResponse (List Article)) : String :=
  match r.results with
  | some (a :: rest) => newsSection (a :: rest)
  | _ =>
    match r.error with
    | some e => if e = "" then "" else "⚠️ Could not fetch news: " ++ e ++ "\n\n"
    | none => ""

/-- The fixed footer appended to every report. -/
def disclaimerFooter : String :=
  "---\n*Not financial advice. For informational purposes only.*"

/-- analyze_stock_query of src/utils/polygon_mcp_util.py. The first component is
the returned report text; the second counts the outbound gateway calls issued,
which instrument the three sequential calls of the success path. -/
def analyze_stock_query (query : String) (api : PolygonAPI) : String × Nat :=
  match extract_ticker query with
  | none => ("❌ Please specify a stock ticker (e.g., AAPL, MSFT, GOOGL) in your query.", 0)
  | some ticker =>
    let details := api.get_ticker_details ticker
    let prev := api.get_previous_close ticker
    let news := api.get_news ticker 3
    ("## 📊 Analysis for " ++ ticker ++ "\n\n" ++
       detailsPart details ++ pricePart prev ++ newsPart news ++ disclaimerFooter, 3)

/-! ### Query classification and the gated pipeline (src/Home.py) -/

/-- Output model of the finance validation, as the FinanceOutput pydantic model. -/
structure FinanceOutput where
  is_about_finance : Bool
  reasoning : String

/-- validate_finance_query of src/Home.py: the external call either yields a
well-formed output or raises, and every raise, including an unreachable
capability and malformed output, is caught and turned into a fail-closed
result carrying the failure text. -/
def validate_finance_query (external : Except String FinanceOutput) : FinanceOutput :=
  match external with
  | Except.ok r => r
  | Except.error e => { is_about_finance := false, reasoning := "Error in validation: " ++ e }

/-- The rejection message built by main in src/Home.py when a query is judged
not finance-related. -/
def rejectionMessage (reasoning : String) : String :=
  "❌ This query doesn't appear to be finance-related. " ++ reasoning ++
    "\n\nPlease ask questions about stocks, market data, financial analysis, or related topics."

/-- The per-query pipeline of main in src/Home.py: validate first, and only on
an in-domain verdict fetch the market data and append the generated narrative.
The second component counts the gateway calls issued, zero on rejection. -/
def processQuery (external : Except String FinanceOutput) (query : String)
    (api : PolygonAPI) (aiNarrative : String) : String × Nat :=
  let validation := validate_finance_query external
  if validation.is_about_finance then
    let pg := analyze_stock_query query api
    (pg.1 ++ "\n\n## 🤖 AI Analysis\n\n" ++ aiNarrative, pg.2)
  else (rejectionMessage validation.reasoning, 0)

/-! ### Report persistence (save_analysis_report of both entry points) -/

/-- The wall-clock instant read by the save functions. -/
structure DateTime where
  year : Nat
  month : Nat
  day : Nat
  hour : Nat
  minute : Nat
  second : Nat

/-- The compact timestamp format used inside filenames. -/
def tsCompact (t : DateTime) : String :=
  padZeros 4 (toString t.year) ++ padZeros 2 (toString t.month) ++ padZeros 2 (toString t.day) ++
    "_" ++ padZeros 2 (toString t.hour) ++ padZeros 2 (toString t.minute) ++ padZeros 2 (toString t.second)

/-- The human-readable timestamp format used in the generated header. -/
def tsHuman (t : DateTime) : String :=
  padZeros 4 (toString t.year) ++ "-" ++ padZeros 2 (toString t.month) ++ "-" ++ padZeros 2 (toString t.day) ++
    " " ++ padZeros 2 (toString t.hour) ++ ":" ++ padZeros 2 (toString t.minute) ++ ":" ++ padZeros 2 (toString t.second)

/-- The filesystem effect of one save call: the directory ensured to exist, the
path written, and the full text written to it. -/
structure SaveEffect where
  ensuredDir : String
  path : String
  fileText : String

/-- save_analysis_report of src/utils/polygon_mcp_util.py: ensures the reports
directory, writes a generated title header, a generation timestamp and the
content under a ticker-first filename, and returns that path. The source reads
the clock twice within the call; the model reads it once. -/
def save_analysis_report (content ticker : String) (now : DateTime) : SaveEffect :=
  { ensuredDir := "reports"
    path := "reports/" ++ ticker ++ "_analysis_" ++ tsCompact now ++ ".md"
    fileText := "# " ++ ticker ++ " Stock Analysis Report\n\n" ++
      "Generated on: " ++ tsHuman now ++ "\n\n" ++ content }

/-- save_analysis_report of src/simple_demo.py: same directory, but the filename
starts with the fixed analysis marker and the ticker comes second, and the file
holds the content alone. -/
def save_analysis_report_demo (content ticker : String) (now : DateTime) : SaveEffect :=
  { ensuredDir := "reports"
    path := "reports/" ++ ("analysis_" ++ ticker ++ "_" ++ tsCompact now ++ ".md")
    fileText := content }

/-! ### Helper lemmas -/

/-- Concatenation of strings concatenates their character lists. -/
theorem strData_append (s t : String) : (s ++ t).data = s.data ++ t.data := rfl

/-- The rational floor of an integer is that integer. -/
theorem ratFloor_intCast (v : ℤ) : Rat.floor (v : ℚ) = v := by
  unfold Rat.floor
  simp

/-- Truncation toward zero fixes the integers. -/
theorem ratTrunc_intCast (v : ℤ) : ratTrunc (v : ℚ) = v := by
  unfold ratTrunc
  by_cases hv : (v : ℚ) < 0
  · rw [if_pos hv, ← Int.cast_neg, ratFloor_intCast, neg_neg]
  · rw [if_neg hv, ratFloor_intCast]

/-! ### Claim theorems -/

/-- C2: for every query whose lowercased text contains a known company name of
the fixed dictionary, extract_ticker returns the mapped ticker of the first
matching entry in the iteration order, before any pattern is consulted, so the
dictionary hit takes precedence over every pattern match. -/
theorem C2_dictionary_precedence (q : String) (p : String × String)
    (hfind : company_mappings.find? (fun e => hasSub e.1.data (strLower q).data) = some p) :
    extract_ticker q = some p.2 := by
  unfold extract_ticker
  rw [hfind]

/-- Witness for C2 at a concrete query that contains both the company name apple
and the unrelated uppercase token NVDA; the dictionary entry still wins. -/
theorem C2_witness :
    company_mappings.find? (fun e => hasSub e.1.data (strLower "NVDA vs apple").data) =
      some ("apple", "AAPL") ∧
    extract_ticker "NVDA vs apple" = some "AAPL" :=
  ⟨by decide, C2_dictionary_precedence "NVDA vs apple" ("apple", "AAPL") (by decide)⟩

/-- C3 counterexample: the claim orders the patterns sigil first, typed word
second, and restricts tokens to uppercase; the source tries the typed-word
pattern first and matches case-insensitively. On the query with both a sigil
token and a typed-word token the two orders disagree, and on an all-lowercase
word the case-sensitive reading returns nothing while the source matches. -/
theorem C3_counterexample :
    claimPatternResolve "$AB CD stock" = some "AB" ∧
    extract_ticker "$AB CD stock" = some "CD" ∧
    claimPatternResolve "hello" = none ∧
    extract_ticker "hello" = some "HELLO" := by decide

/-- C3 as amended: with no dictionary hit, extract_ticker equals the ordered
pattern chain of the source, namely typed-word pattern, then keyword pattern,
then sigil pattern, then bare-token pattern, each matched case-insensitively
against the original-case query, the first match upper-cased and length-checked;
when no pattern matches the result is absent, as the concrete examples show. -/
theorem C3_pattern_order (q : String)
    (hfind : company_mappings.find? (fun e => hasSub e.1.data (strLower q).data) = none) :
    (extract_ticker q =
      (validated (scanTyped Char.isAlpha none q.data) <|>
        (validated (scanKeyword Char.isAlpha q.data) <|>
          (validated (scanSigil Char.isAlpha q.data) <|>
            validated (scanBare Char.isAlpha none q.data))))) ∧
    extract_ticker "$AB CD stock" = some "CD" ∧
    extract_ticker "ticker ABCDE" = some "ABCDE" ∧
    extract_ticker "$qqq" = some "QQQ" ∧
    extract_ticker "hello" = some "HELLO" ∧
    extract_ticker "a + 1" = none := by
  refine ⟨?_, by decide, by decide, by decide, by decide, by decide⟩
  unfold extract_ticker tryPatterns
  rw [hfind]

/-- Witness for C3 at a concrete dictionary-free query. -/
theorem C3_witness :
    company_mappings.find? (fun e => hasSub e.1.data (strLower "$AB CD stock").data) = none ∧
    extract_ticker "$AB CD stock" =
      (validated (scanTyped Char.isAlpha none "$AB CD stock".data) <|>
        (validated (scanKeyword Char.isAlpha "$AB CD stock".data) <|>
          (validated (scanSigil Char.isAlpha "$AB CD stock".data) <|>
            validated (scanBare Char.isAlpha none "$AB CD stock".data)))) :=
  ⟨by decide, (C3_pattern_order "$AB CD stock" (by decide)).1⟩

/-- C4: when the external classification capability is unreachable or returns
malformed output the caught failure yields a fail-closed verdict whose rationale
carries the failure text, and every not-in-domain verdict makes the pipeline
return the rejection message with zero gateway calls issued. -/
theorem C4_classifier_fails_closed :
    (∀ e : String, validate_finance_query (Except.error e) =
      { is_about_finance := false, reasoning := "Error in validation: " ++ e }) ∧
    (∀ (e q : String) (api : PolygonAPI) (ai : String),
      processQuery (Except.error e) q api ai =
        (rejectionMessage ("Error in validation: " ++ e), 0)) ∧
    (∀ (r q : String) (api : PolygonAPI) (ai : String),
      processQuery (Except.ok { is_about_finance := false, reasoning := r }) q api ai =
        (rejectionMessage r, 0)) :=
  ⟨fun _ => rfl, fun _ _ _ _ => rfl, fun _ _ _ _ => rfl⟩

/-- C1 counterexample: on a concrete run with a news failure the report does not
end byte-identically with the bare disclaimer sentence; its actual final bytes
are the footer that wraps the sentence in emphasis markers after a rule line. -/
theorem C1_counterexample :
    ("Not financial advice. For informational purposes only.".data.isSuffixOf
      (analyze_stock_query "AAPL stock"
        { get_ticker_details := fun _ => { results := some ⟨none, none, none, none, none⟩, error := none }
          get_previous_close := fun _ => { results := some [⟨none, none, none, none, none⟩], error := none }
          get_news := fun _ _ => { results := none, error := some "HTTP 429" } }).1.data) = false ∧
    ("---\n*Not financial advice. For informational purposes only.*".data.isSuffixOf
      (analyze_stock_query "AAPL stock"
        { get_ticker_details := fun _ => { results := some ⟨none, none, none, none, none⟩, error := none }
          get_previous_close := fun _ => { results := some [⟨none, none, none, none, none⟩], error := none }
          get_news := fun _ _ => { results := none, error := some "HTTP 429" } }).1.data) = true := by
  decide

/-- C1 as amended: with the news fetch failed and the other two fetches
successful with non-empty results, the report is exactly the header, the details
section, the price section, one single warning line naming the news failure and
its detail, and the fixed footer, which ends the report and wraps the
disclaimer sentence in emphasis markers; and even with every fetch failed the
synthesis still emits all three warning lines and the footer, so no failure
aborts the remaining sections. -/
theorem C1_news_failure_report (q t : String) (d : TickerDetails) (b : Bar)
    (bars : List Bar) (e : String) (ht : extract_ticker q = some t) (he : e ≠ "") :
    ((analyze_stock_query q
        { get_ticker_details := fun _ => { results := some d, error := none }
          get_previous_close := fun _ => { results := some (b :: bars), error := none }
          get_news := fun _ _ => { results := none, error := some e } }).1 =
      "## 📊 Analysis for " ++ t ++ "\n\n" ++ detailsSection d ++ priceSection b ++
        ("⚠️ Could not fetch news: " ++ e ++ "\n\n") ++ disclaimerFooter) ∧
    (disclaimerFooter.data <:+ (analyze_stock_query q
        { get_ticker_details := fun _ => { results := some d, error := none }
          get_previous_close := fun _ => { results := some (b :: bars), error := none }
          get_news := fun _ _ => { results := none, error := some e } }).1.data) ∧
    (∀ e1 e2 e3 : String, e1 ≠ "" → e2 ≠ "" → e3 ≠ "" →
      (analyze_stock_query q
        { get_ticker_details := fun _ => { results := none, error := some e1 }
          get_previous_close := fun _ => { results := none, error := some e2 }
          get_news := fun _ _ => { results := none, error := some e3 } }).1 =
      "## 📊 Analysis for " ++ t ++ "\n\n" ++
        ("⚠️ Could not fetch ticker details: " ++ e1 ++ "\n\n") ++
        ("⚠️ Could not fetch price data: " ++ e2 ++ "\n\n") ++
        ("⚠️ Could not fetch news: " ++ e3 ++ "\n\n") ++ disclaimerFooter) := by
  have hmain : (analyze_stock_query q
      { get_ticker_details := fun _ => { results := some d, error := none }
        get_previous_close := fun _ => { results := some (b :: bars), error := none }
        get_news := fun _ _ => { results := none, error := some e } }).1 =
      "## 📊 Analysis for " ++ t ++ "\n\n" ++ detailsSection d ++ priceSection b ++
        ("⚠️ Could not fetch news: " ++ e ++ "\n\n") ++ disclaimerFooter := by
    simp only [analyze_stock_query, ht, detailsPart, pricePart, newsPart, if_neg he]
  refine ⟨hmain, ?_, ?_⟩
  · rw [hmain]
    exact ⟨_, (strData_append _ _).symm⟩
  · intro e1 e2 e3 h1 h2 h3
    simp only [analyze_stock_query, ht, detailsPart, pricePart, newsPart,
      if_neg h1, if_neg h2, if_neg h3]

/-- Witness for C1 at a concrete query, payload and failure detail. -/
theorem C1_witness :
    extract_ticker "AAPL stock" = some "AAPL" ∧ ("HTTP 429" ≠ "") ∧
    (((analyze_stock_query "AAPL stock"
        { get_ticker_details := fun _ => { results := some ⟨none, none, none, none, none⟩, error := none }
          get_previous_close := fun _ => { results := some [⟨none, none, none, none, none⟩], error := none }
          get_news := fun _ _ => { results := none, error := some "HTTP 429" } }).1 =
      "## 📊 Analysis for " ++ "AAPL" ++ "\n\n" ++ detailsSection ⟨none, none, none, none, none⟩ ++
        priceSection ⟨none, none, none, none, none⟩ ++
        ("⚠️ Could not fetch news: " ++ "HTTP 429" ++ "\n\n") ++ disclaimerFooter) ∧
    (disclaimerFooter.data <:+ (analyze_stock_query "AAPL stock"
        { get_ticker_details := fun _ => { results := some ⟨none, none, none, none, none⟩, error := none }
          get_previous_close := fun _ => { results := some [⟨none, none, none, none, none⟩], error := none }
          get_news := fun _ _ => { results := none, error := some "HTTP 429" } }).1.data) ∧
    (∀ e1 e2 e3 : String, e1 ≠ "" → e2 ≠ "" → e3 ≠ "" →
      (analyze_stock_query "AAPL stock"
        { get_ticker_details := fun _ => { results := none, error := some e1 }
          get_previous_close := fun _ => { results := none, error := some e2 }
          get_news := fun _ _ => { results := none, error := some e3 } }).1 =
      "## 📊 Analysis for " ++ "AAPL" ++ "\n\n" ++
        ("⚠️ Could not fetch ticker details: " ++ e1 ++ "\n\n") ++
        ("⚠️ Could not fetch price data: " ++ e2 ++ "\n\n") ++
        ("⚠️ Could not fetch news: " ++ e3 ++ "\n\n") ++ disclaimerFooter)) :=
  ⟨by decide, by decide,
    C1_news_failure_report "AAPL stock" "AAPL" ⟨none, none, none, none, none⟩
      ⟨none, none, none, none, none⟩ [] "HTTP 429" (by decide) (by decide)⟩

/-- C5 counterexample: a payload with a positive open and a close equal to zero
has both prices present and the open nonzero, yet the source emits no
daily-change line, because the guard also tests the truthiness of the close. -/
theorem C5_counterexample :
    dailyChange { c := some 0, h := none, l := none, o := some 100, v := none } = none ∧
    hasSub "**Daily Change:**".data
      (priceSection { c := some 0, h := none, l := none, o := some 100, v := none }).data = false := by
  decide

/-- C5 as amended: a missing or zero open emits no daily-change line; when open
and close are both present and both nonzero the line shows the signed
difference close minus open and the signed percentage of that difference over
the open, each with two decimals, as the concrete open 100 close 110 shows. -/
theorem C5_change_guard (hq lq vq : Option ℚ) (cv o : ℚ) (ho : o ≠ 0) (hc : cv ≠ 0) :
    (dailyChange { c := some cv, h := hq, l := lq, o := some o, v := vq } =
      some ("**Daily Change:** " ++ (if cv - o ≥ 0 then "📈" else "📉") ++ " " ++
        fmtFixed false 2 true (cv - o) ++ " (" ++
        fmtFixed false 2 true ((cv - o) / o * 100) ++ "%)\n\n")) ∧
    (∀ c2 : Option ℚ, dailyChange { c := c2, h := hq, l := lq, o := some 0, v := vq } = none) ∧
    (∀ c2 : Option ℚ, dailyChange { c := c2, h := hq, l := lq, o := none, v := vq } = none) ∧
    changeLine 100 110 = "**Daily Change:** 📈 +10.00 (+10.00%)\n\n" := by
  refine ⟨?_, ?_, ?_, by decide⟩
  · simp [dailyChange, ho, hc, changeLine]
  · intro c2
    cases c2 <;> simp [dailyChange]
  · intro c2
    cases c2 <;> simp [dailyChange]

/-- Witness for C5 at open 100 and close 110. -/
theorem C5_witness :
    ((100 : ℚ) ≠ 0) ∧ ((110 : ℚ) ≠ 0) ∧
    ((dailyChange { c := some 110, h := none, l := none, o := some 100, v := none } =
      some ("**Daily Change:** " ++ (if (110 : ℚ) - 100 ≥ 0 then "📈" else "📉") ++ " " ++
        fmtFixed false 2 true ((110 : ℚ) - 100) ++ " (" ++
        fmtFixed false 2 true (((110 : ℚ) - 100) / 100 * 100) ++ "%)\n\n")) ∧
    (∀ c2 : Option ℚ, dailyChange { c := c2, h := none, l := none, o := some 0, v := none } = none) ∧
    (∀ c2 : Option ℚ, dailyChange { c := c2, h := none, l := none, o := none, v := none } = none) ∧
    changeLine 100 110 = "**Daily Change:** 📈 +10.00 (+10.00%)\n\n") :=
  ⟨by decide, by decide, C5_change_guard none none none 110 100 (by decide) (by decide)⟩

/-- C6 counterexample: a present market-cap value of zero fails the truthiness
guard, so nothing is rendered at all, where the claim prescribes a plain-integer
rendering for every present value below a million. -/
theorem C6_counterexample :
    marketCapPart (some 0) = "" ∧
    hasSub "**Market Cap:**".data
      (detailsSection ⟨none, none, none, none, some 0⟩).data = false := by
  decide

/-- C6 as amended: for every present and nonzero market-cap value the rendering
scales to billions with one decimal at or above a billion, else to millions with
one decimal at or above a million, else a thousands-separated integer; in
particular 900000000 renders as 900.0M and 2500000000 renders as 2.5B. -/
theorem C6_market_cap_format (mc : ℚ) (hmc : mc ≠ 0) :
    (marketCapPart (some mc) =
      (if mc ≥ 1000000000 then
        "**Market Cap:** $" ++ fmtFixed false 1 false (mc / 1000000000) ++ "B\n"
       else if mc ≥ 1000000 then
        "**Market Cap:** $" ++ fmtFixed false 1 false (mc / 1000000) ++ "M\n"
       else "**Market Cap:** $" ++ fmtFixed true 0 false mc ++ "\n")) ∧
    marketCapPart (some 900000000) = "**Market Cap:** $900.0M\n" ∧
    marketCapPart (some 2500000000) = "**Market Cap:** $2.5B\n" := by
  refine ⟨?_, by decide, by decide⟩
  simp [marketCapPart, hmc]

/-- Witness for C6 at the concrete value 2500000000. -/
theorem C6_witness :
    ((2500000000 : ℚ) ≠ 0) ∧
    ((marketCapPart (some (2500000000 : ℚ)) =
      (if (2500000000 : ℚ) ≥ 1000000000 then
        "**Market Cap:** $" ++ fmtFixed false 1 false ((2500000000 : ℚ) / 1000000000) ++ "B\n"
       else if (2500000000 : ℚ) ≥ 1000000 then
        "**Market Cap:** $" ++ fmtFixed false 1 false ((2500000000 : ℚ) / 1000000) ++ "M\n"
       else "**Market Cap:** $" ++ fmtFixed true 0 false (2500000000 : ℚ) ++ "\n")) ∧
    marketCapPart (some 900000000) = "**Market Cap:** $900.0M\n" ∧
    marketCapPart (some 2500000000) = "**Market Cap:** $2.5B\n") :=
  ⟨by decide, C6_market_cap_format 2500000000 (by decide)⟩

/-- C7: the volume formatter scales every integer volume at or above a million
to M with one decimal, at or above a thousand to K with one decimal, and renders
it as a thousands-separated integer otherwise; the concrete examples evaluate as
the claim states, and the volume line of the price section, the only place a
share count is rendered, goes through this same formatter. -/
theorem C7_volume_format :
    (∀ v : ℤ, format_volume (some (v : ℚ)) =
      (if v ≥ 1000000 then fmtFixed false 1 false ((v : ℚ) / 1000000) ++ "M"
       else if v ≥ 1000 then fmtFixed false 1 false ((v : ℚ) / 1000) ++ "K"
       else intComma v)) ∧
    format_volume (some 500) = "500" ∧
    format_volume (some 1500) = "1.5K" ∧
    format_volume (some 2500000) = "2.5M" ∧
    (∀ b : Bar, volumeLine b = "- **Volume:** " ++ format_volume b.v ++ " shares\n\n") ∧
    (∀ b : Bar, priceSection b = priceLines b ++ volumeLine b ++ (dailyChange b).getD "") := by
  refine ⟨?_, by decide, by decide, by decide, fun b => rfl, fun b => rfl⟩
  intro v
  simp only [format_volume, ratTrunc_intCast]

/-- C8 counterexample: with every field missing from a successful details
payload the section renders the currency as USD, the upper-cased fallback
default of the source, not as the N/A placeholder the claim prescribes for
every missing field. -/
theorem C8_counterexample :
    detailsSection ⟨none, none, none, none, none⟩ =
      "**Company:** N/A\n**Market:** N/A\n**Type:** N/A\n**Currency:** USD\n\n" ∧
    hasSub "**Currency:** N/A".data
      (detailsSection ⟨none, none, none, none, none⟩).data = false := by
  decide

/-- C8 as amended: in the details section a missing company name, market or type
renders as the N/A placeholder, a missing currency renders as the upper-cased
USD default, a missing market cap renders nothing, and present market and
currency values are rendered upper-cased; the section is the concatenation of
exactly these lines. -/
theorem C8_missing_fields (m ty cu : Option String) (mc : Option ℚ) (s : String) (d : TickerDetails) :
    companyLine ⟨none, m, ty, cu, mc⟩ = "**Company:** N/A\n" ∧
    marketLine ⟨none, none, ty, cu, mc⟩ = "**Market:** N/A\n" ∧
    typeLine ⟨none, m, none, cu, mc⟩ = "**Type:** N/A\n" ∧
    currencyLine ⟨none, m, ty, none, mc⟩ = "**Currency:** USD\n" ∧
    marketCapPart none = "" ∧
    marketLine ⟨none, some s, ty, cu, mc⟩ = "**Market:** " ++ strUpper s ++ "\n" ∧
    currencyLine ⟨none, m, ty, some s, mc⟩ = "**Currency:** " ++ strUpper s ++ "\n" ∧
    detailsSection d = companyLine d ++ marketLine d ++ typeLine d ++ currencyLine d ++
      marketCapPart d.market_cap ++ "\n" :=
  ⟨rfl, rfl, rfl, rfl, rfl, rfl, rfl, rfl⟩

/-- C9 counterexample: the save of the demo entry point names the file with the
analysis marker first and the ticker second, so its path does not follow the
ticker-first pattern the claim prescribes for every save. -/
theorem C9_counterexample :
    (save_analysis_report_demo "body" "AAPL" ⟨2024, 1, 2, 3, 4, 5⟩).path =
      "reports/analysis_AAPL_20240102_030405.md" ∧
    (save_analysis_report_demo "body" "AAPL" ⟨2024, 1, 2, 3, 4, 5⟩).path ≠
      "reports/" ++ "AAPL" ++ "_analysis_" ++ tsCompact ⟨2024, 1, 2, 3, 4, 5⟩ ++ ".md" := by
  decide

/-- C9 as amended: both saves ensure the reports directory and return the path
they write under it with a second-resolution timestamp; the utility save writes
the ticker-first filename and prefixes the content with a generated header, the
demo save writes the marker-first filename and the content alone. -/
theorem C9_save_contract (content ticker : String) (now : DateTime) :
    (save_analysis_report content ticker now).ensuredDir = "reports" ∧
    (save_analysis_report content ticker now).path =
      "reports/" ++ ticker ++ "_analysis_" ++ tsCompact now ++ ".md" ∧
    (save_analysis_report content ticker now).fileText =
      "# " ++ ticker ++ " Stock Analysis Report\n\n" ++
        "Generated on: " ++ tsHuman now ++ "\n\n" ++ content ∧
    (save_analysis_report_demo content ticker now).ensuredDir = "reports" ∧
    (save_analysis_report_demo content ticker now).path =
      "reports/" ++ ("analysis_" ++ ticker ++ "_" ++ tsCompact now ++ ".md") ∧
    (save_analysis_report_demo content ticker now).fileText = content :=
  ⟨rfl, rfl, rfl, rfl, rfl, rfl⟩

/-- C10: the daily-change line is emitted exactly when the open and the close
are both present and both nonzero, so the guard is symmetric in the two prices. -/
theorem C10_change_iff (b : Bar) :
    (dailyChange b).isSome = true ↔
      ∃ o cv : ℚ, b.o = some o ∧ b.c = some cv ∧ o ≠ 0 ∧ cv ≠ 0 := by
  obtain ⟨bc, bh, bl, bo, bv⟩ := b
  cases bo with
  | none => cases bc <;> simp [dailyChange]
  | some o =>
    cases bc with
    | none => simp [dailyChange]
    | some c =>
      by_cases hx : o ≠ 0 ∧ c ≠ 0
      · simp [dailyChange, hx]
      · simp [dailyChange, hx]
